import Mathlib

/-!
Verification of the InkyPi scheduling core: the playlist activity/priority
model, the refresh scheduler's selection and due-check logic, and two HTTP
route handlers from `src/blueprints/plugin.py`.

The repository snapshot does not include `src/model.py` (class `Playlist`),
`src/plugins/playlist_manager` or `src/refresh_task.py` (class `RefreshTask`);
only their tests (`src/tests/test_model.py`) and callers
(`src/blueprints/plugin.py`, `src/inkypi.py`) are present.  Those components
are therefore modelled from the design document, faithful to its wording; the
route handlers are embedded directly from `src/blueprints/plugin.py`.
-/

namespace InkyPi

/-- Modelled from the spec: `src/model.py` class `Playlist` is missing from the
snapshot.  Per §3 of the design document, a playlist carries a name and a
time-of-day window `start`, `end`, each in minutes since local midnight in
`[0, 1440]`; `end = 1440` denotes "through end of day".  (`end` is a Lean
keyword, so the fields are named `start_time` / `end_time`.) -/
structure Playlist where
  name : String
  start_time : Nat
  end_time : Nat
deriving Repr, DecidableEq

/-- Modelled from the spec: `Playlist.is_active(current_time)` of the missing
`src/model.py`, following §4.1 case by case: all-day sentinel `(0, 1440)` is
active iff `current < 1440`; `start == end` is always inactive; a non-wrapping
window (`start < end`) is active iff `start ≤ current < end`; a wrapping window
(`start > end`) is active iff `current ≥ start OR current < end`. -/
def Playlist.is_active (p : Playlist) (current : Nat) : Bool :=
  if p.start_time = 0 ∧ p.end_time = 1440 then
    decide (current < 1440)
  else if p.start_time = p.end_time then
    false
  else if p.start_time < p.end_time then
    decide (p.start_time ≤ current ∧ current < p.end_time)
  else
    decide (p.start_time ≤ current ∨ current < p.end_time)

/-- Modelled from the spec: `Playlist.get_priority()` of the missing
`src/model.py`, following §4.1: the window's duration in minutes — all-day
sentinel `1440`, zero-width `0`, non-wrapping `end - start`, wrapping
`(end - start + 1440) mod 1440` (written over `Nat` as
`(end + 1440 - start) % 1440`, identical for in-range windows). -/
def Playlist.get_priority (p : Playlist) : Nat :=
  if p.start_time = 0 ∧ p.end_time = 1440 then
    1440
  else if p.start_time = p.end_time then
    0
  else if p.start_time < p.end_time then
    p.end_time - p.start_time
  else
    (p.end_time + 1440 - p.start_time) % 1440

/-- Modelled from the spec: tie-breaking scan of the missing playlist manager
(§4.1/§4.2): among a list of playlists, return the one with the smallest
priority, resolving ties by declaration order (the earlier entry wins). -/
def select_lowest : List Playlist → Option Playlist
  | [] => none
  | p :: ps =>
    match select_lowest ps with
    | none => some p
    | some q => if q.get_priority < p.get_priority then some q else some p

/-- Modelled from the spec: `active_playlist(current_time)` of the missing
playlist manager (§4.2): applies §4.1 across all playlists and returns the
winner — the active playlist of smallest priority, ties broken by declaration
order — or none if nothing is active. -/
def determine_active_playlist (ps : List Playlist) (t : Nat) : Option Playlist :=
  select_lowest (ps.filter (fun p => p.is_active t))

/-- Modelled from the spec: a plugin instance's refresh cadence (§3), either
`{interval: seconds}` (fixed cadence) or `{scheduled: "HH:MM"}` (once per day
at a wall-clock time, stored here as minutes since midnight). -/
inductive Refresh where
  | interval (seconds : Nat)
  | scheduled (minuteOfDay : Nat)
deriving Repr, DecidableEq

/-- Modelled from the spec: the scheduler's due-check (§4.3 step 3) of the
missing `src/refresh_task.py`.  Times are epoch seconds.  An instance is due
if `last_refreshed` is absent; an interval instance is due when
`now - last_refreshed ≥ s`; a scheduled instance is due when the wall clock
has crossed today's scheduled instant and the last successful render happened
before that instant (at most one render per calendar day). -/
def is_due (r : Refresh) (last_refreshed : Option Nat) (now : Nat) : Bool :=
  match last_refreshed with
  | none => true
  | some lr =>
    match r with
    | .interval s => decide (s ≤ now - lr)
    | .scheduled m =>
      let todaySched := now / 86400 * 86400 + m * 60
      decide (todaySched ≤ now ∧ lr < todaySched)

/-- Modelled from the spec: `PluginInstance` (§3) — a content-source
configuration with its refresh cadence and the timestamp of its last
successful display, absent before first display. -/
structure PluginInstance where
  plugin_id : String
  instance_name : String
  settings : List (String × String)
  refresh : Refresh
  last_refreshed : Option Nat
deriving Repr, DecidableEq

/-- Modelled from the spec: one RENDERING → DISPLAYING pass of the missing
`src/refresh_task.py` loop (§4.3 steps 3–5, §7) for one instance.  The plugin
render is passed in as a function returning either an image (a `Nat` id) or an
error.  The first component is the image handed to the display sink (`none`
means the sink is never invoked); the second is the instance afterwards.  Due
and successful: display the image and set `last_refreshed := now`.  Not due,
or render failed: no display, instance unchanged. -/
def process_instance (render : PluginInstance → Except String Nat)
    (inst : PluginInstance) (now : Nat) : Option Nat × PluginInstance :=
  if is_due inst.refresh inst.last_refreshed now then
    match render inst with
    | .error _ => (none, inst)
    | .ok img => (some img, { inst with last_refreshed := some now })
  else
    (none, inst)

/-- A manual refresh request: render arbitrary settings once, outside any
playlist (constructed in `update_now` of `src/blueprints/plugin.py`). -/
structure ManualRefresh where
  plugin_id : String
  settings : List (String × String)
deriving Repr, DecidableEq

/-- Outcome of the `update_now` route of `src/blueprints/plugin.py`:
either the request was queued to the background loop, or it was serviced
directly (the image generated and handed to `display_manager.display_image`),
or the named plugin does not exist (HTTP 404), or the direct
`generate_image` / `display_image` call raised — both run inside the same
`try/except`, which answers HTTP 500. -/
inductive UpdateNowOutcome where
  | queued (r : ManualRefresh)
  | displayed (image : Nat)
  | pluginNotFound
  | serverError (msg : String)
deriving Repr, DecidableEq

/-- HTTP status the `update_now` route returns for each outcome. -/
def update_now_status : UpdateNowOutcome → Nat
  | .queued _ => 200
  | .displayed _ => 200
  | .pluginNotFound => 404
  | .serverError _ => 500

/-- The `update_now` route of `src/blueprints/plugin.py` (lines 229–258):
if `refresh_task.running`, submit `ManualRefresh(plugin_id, settings)` to the
background loop; otherwise look the plugin up, 404 when absent, and otherwise
call `generate_image` and hand the image to
`display_manager.display_image` — both calls run inside the route's
`try/except`, so an exception from either one yields a 500 error.
`generate_image` and `display_image` are passed in as functions returning a
value or an error. -/
def update_now (running : Bool) (plugins : List String)
    (generate_image : String → List (String × String) → Except String Nat)
    (display_image : Nat → Except String Unit)
    (plugin_id : String) (settings : List (String × String)) : UpdateNowOutcome :=
  if running then
    .queued ⟨plugin_id, settings⟩
  else if plugin_id ∈ plugins then
    match generate_image plugin_id settings with
    | .ok img =>
      match display_image img with
      | .ok _ => .displayed img
      | .error e => .serverError e
    | .error e => .serverError e
  else
    .pluginNotFound

/-- `os.path.abspath`-style normalization over path components: drops `.` and
empty components and lets `..` consume the preceding component (staying at the
root when there is none), as in the `safe_path` computation of the `image`
route of `src/blueprints/plugin.py`. -/
def normalize_path (comps : List String) : List String :=
  comps.foldl
    (fun acc c =>
      if c = "." ∨ c = "" then acc
      else if c = ".." then acc.dropLast
      else acc ++ [c])
    []

/-- Renders an absolute path from components, as the string the Python code
compares with `str.startswith` (e.g. `["app", "plugins"]` ↦ `/app/plugins`). -/
def path_to_string (comps : List String) : String :=
  String.join (comps.map (fun c => "/" ++ c))

/-- Character-level prefix test: `chars_lead pre s` is true iff the character
list `pre` is an initial segment of `s`. -/
def chars_lead : List Char → List Char → Bool
  | [], _ => true
  | _ :: _, [] => false
  | p :: ps, c :: cs => p == c && chars_lead ps cs

/-- Python's `str.startswith(pre)`: `s` starts with the character sequence of
`pre`. -/
def str_starts_with (s pre : String) : Bool :=
  chars_lead pre.data s.data

/-- True when the (normalized) path `p` lies under the directory `dir`, i.e.
`dir`'s components are an initial segment of `p`'s components — the intended
"resolved path stays inside the plugins directory" property. -/
def within_dir : List String → List String → Bool
  | [], _ => true
  | _ :: _, [] => false
  | d :: ds, c :: cs => d == c && within_dir ds cs

/-- Outcome of the `image` route of `src/blueprints/plugin.py`:
403 "Invalid path", 404 "Plugin directory not found", 404 "File not found",
or the file served from `dir` by `send_from_directory`. -/
inductive ImageRouteResult where
  | invalidPath
  | dirNotFound
  | fileNotFound
  | serve (dir : List String) (filename : List String)
deriving Repr, DecidableEq

/-- The `image` route of `src/blueprints/plugin.py` (lines 66–92), over a
filesystem given as the lists of existing directories and files (normalized
absolute paths).  `plugin_dir = plugins_dir/plugin_id`;
`safe_path = abspath(plugin_dir/filename)`; the security check rejects with
403 exactly when the *string* `safe_path` does not start with the string
`abspath(plugins_dir)`; then the directory and file existence checks run, and
finally the file is served from `abspath(plugin_dir)`. -/
def image_route (dirs files : List (List String)) (plugins_dir : List String)
    (plugin_id : String) (filename : List String) : ImageRouteResult :=
  let plugin_dir := plugins_dir ++ [plugin_id]
  let safe_path := normalize_path (plugin_dir ++ filename)
  if ¬ str_starts_with (path_to_string safe_path)
      (path_to_string (normalize_path plugins_dir)) = true then
    .invalidPath
  else
    let abs_plugin_dir := normalize_path plugin_dir
    if abs_plugin_dir ∉ dirs then
      .dirNotFound
    else if safe_path ∉ files then
      .fileNotFound
    else
      .serve abs_plugin_dir filename

end InkyPi

namespace InkyPi

/-- C1: for every playlist with a non-wrapping window (`start < end`) and every
legal current time `t < 1440`, `is_active t` is true iff `start ≤ t < end`
(start inclusive, end exclusive). -/
theorem C1_nonwrapping_is_active (p : Playlist) (t : Nat)
    (hw : p.start_time < p.end_time) (ht : t < 1440) :
    p.is_active t = true ↔ (p.start_time ≤ t ∧ t < p.end_time) := by
  unfold Playlist.is_active
  split_ifs with h1 h2
  · simp only [decide_eq_true_iff]
    omega
  · omega
  · simp only [decide_eq_true_iff]

/-- Witness for C1 at the test scenario 09:00–15:00 (540–900), `t` = 10:00. -/
theorem C1_witness : (Playlist.mk "Day" 540 900).is_active 600 = true :=
  (C1_nonwrapping_is_active (Playlist.mk "Day" 540 900) 600 (by decide)
    (by decide)).mpr (by decide)

/-- C2: for every playlist whose window wraps midnight (`start > end`) and
every legal current time `t < 1440`, `is_active t` is true iff
`t ≥ start OR t < end` (start inclusive, end exclusive). -/
theorem C2_wrapping_is_active (p : Playlist) (t : Nat)
    (hw : p.end_time < p.start_time) (ht : t < 1440) :
    p.is_active t = true ↔ (p.start_time ≤ t ∨ t < p.end_time) := by
  unfold Playlist.is_active
  split_ifs with h1 h2 h3
  · omega
  · omega
  · omega
  · simp only [decide_eq_true_iff]

/-- Witness for C2 at the test scenario 21:00–03:00 (1260–180), `t` = 00:00. -/
theorem C2_witness : (Playlist.mk "Night" 1260 180).is_active 0 = true :=
  (C2_wrapping_is_active (Playlist.mk "Night" 1260 180) 0 (by decide)
    (by decide)).mpr (Or.inr (by decide))

/-- C3: for every playlist with an in-range window, `get_priority` equals the
window's duration in minutes — `end - start` when `start < end`,
`(end - start + 1440) mod 1440` when `start > end`, `1440` for the all-day
sentinel `(0, 1440)` — and the all-day sentinel is active at every legal
`t < 1440`. -/
theorem C3_priority_is_duration (p : Playlist)
    (hs : p.start_time ≤ 1440) (he : p.end_time ≤ 1440) :
    (p.start_time < p.end_time →
      p.get_priority = p.end_time - p.start_time) ∧
    (p.end_time < p.start_time →
      (p.get_priority : Int) =
        ((p.end_time : Int) - p.start_time + 1440) % 1440) ∧
    (p.start_time = 0 ∧ p.end_time = 1440 →
      p.get_priority = 1440 ∧ ∀ t, t < 1440 → p.is_active t = true) := by
  refine ⟨?_, ?_, ?_⟩
  · intro hlt
    unfold Playlist.get_priority
    split_ifs with h1 h2 <;> omega
  · intro hgt
    unfold Playlist.get_priority
    split_ifs with h1 h2 h3
    · omega
    · omega
    · omega
    · have hrange : p.end_time + 1440 - p.start_time < 1440 := by omega
      rw [Nat.mod_eq_of_lt hrange]
      have : ((p.end_time : Int) - p.start_time + 1440) % 1440 =
          (p.end_time : Int) - p.start_time + 1440 :=
        Int.emod_eq_of_lt (by omega) (by omega)
      rw [this]
      omega
  · rintro ⟨h0, h1440⟩
    constructor
    · unfold Playlist.get_priority
      rw [if_pos ⟨h0, h1440⟩]
    · intro t ht
      unfold Playlist.is_active
      rw [if_pos ⟨h0, h1440⟩]
      simpa using ht

/-- Witness for C3 at the test scenario 21:00–03:00 (1260–180):
the wrapping window's priority is 360 minutes. -/
theorem C3_witness :
    ((Playlist.mk "Night" 1260 180).get_priority : Int) =
      ((180 : Int) - 1260 + 1440) % 1440 :=
  (C3_priority_is_duration (Playlist.mk "Night" 1260 180) (by decide)
    (by decide)).2.1 (by decide)

/-- C4: every playlist with `start == end` (zero-width window, which can never
be the all-day sentinel) is inactive at every time and has priority 0. -/
theorem C4_zero_width_inactive (p : Playlist) (t : Nat)
    (h : p.start_time = p.end_time) :
    p.is_active t = false ∧ p.get_priority = 0 := by
  constructor
  · unfold Playlist.is_active
    split_ifs with h1
    · exfalso
      omega
    · rfl
  · unfold Playlist.get_priority
    split_ifs with h1
    · exfalso
      omega
    · rfl

/-- Witness for C4 at the test scenario 12:00–12:00, `t` = 12:00. -/
theorem C4_witness :
    (Playlist.mk "Noon" 720 720).is_active 720 = false ∧
    (Playlist.mk "Noon" 720 720).get_priority = 0 :=
  C4_zero_width_inactive (Playlist.mk "Noon" 720 720) 720 rfl

/-- Counterexample to C5 as stated: the playlist 18:00–00:00 (start 1080,
end 0, so `end == 0` and `start > 0`) is active at 23:59 (minute 1439, a legal
current time), so it is not a permanently inactive zero-width window.  This
matches `src/tests/test_model.py`, which asserts
`Playlist("18:00", "00:00").is_active("23:59") == True` with priority 360. -/
theorem C5_counterexample :
    0 < (1080 : Nat) ∧ (1439 : Nat) < 1440 ∧
    (Playlist.mk "Evening" 1080 0).is_active 1439 = true := by
  refine ⟨by decide, by decide, ?_⟩
  rfl

/-- C5 amended: for every playlist with `end == 0` and `start > 0`, the window
wraps midnight degenerately: at every legal current time `t < 1440`,
`is_active t` is true iff `t ≥ start` — active from `start` through 23:59 and
inactive from midnight up to `start`, not permanently inactive. -/
theorem C5_end_zero_wraps (p : Playlist) (t : Nat)
    (h0 : p.end_time = 0) (hs : 0 < p.start_time) (ht : t < 1440) :
    p.is_active t = true ↔ p.start_time ≤ t := by
  unfold Playlist.is_active
  split_ifs with h1 h2 h3
  · omega
  · omega
  · omega
  · simp only [decide_eq_true_iff]
    omega

/-- Witness for the amended C5 at the test scenario 18:00–00:00, `t` = 23:59. -/
theorem C5_witness : (Playlist.mk "Evening" 1080 0).is_active 1439 = true :=
  (C5_end_zero_wraps (Playlist.mk "Evening" 1080 0) 1439 rfl (by decide)
    (by decide)).mpr (by decide)

/-- On a nonempty list, `select_lowest` returns an element of minimal priority,
and specifically the first element attaining that minimal priority. -/
theorem select_lowest_spec (l : List Playlist) (hl : l ≠ []) :
    ∃ p, select_lowest l = some p ∧ p ∈ l ∧
      (∀ q ∈ l, p.get_priority ≤ q.get_priority) ∧
      l.find? (fun q => q.get_priority == p.get_priority) = some p := by
  induction l with
  | nil => exact absurd rfl hl
  | cons x xs ih =>
    rcases eq_or_ne xs [] with hxs | hxs
    · subst hxs
      refine ⟨x, rfl, List.mem_singleton_self x, ?_, ?_⟩
      · intro q hq
        rw [List.mem_singleton] at hq
        subst hq
        exact le_refl _
      · simp
    · obtain ⟨q, hq1, hq2, hq3, hq4⟩ := ih hxs
      by_cases hlt : q.get_priority < x.get_priority
      · refine ⟨q, ?_, List.mem_cons_of_mem x hq2, ?_, ?_⟩
        · simp only [select_lowest, hq1]
          rw [if_pos hlt]
        · intro r hr
          rcases List.mem_cons.mp hr with h | h
          · subst h
            exact le_of_lt hlt
          · exact hq3 r h
        · rw [List.find?_cons_of_neg, hq4]
          simp only [beq_iff_eq]
          omega
      · refine ⟨x, ?_, List.mem_cons_self x xs, ?_, ?_⟩
        · simp only [select_lowest, hq1]
          rw [if_neg hlt]
        · intro r hr
          rcases List.mem_cons.mp hr with h | h
          · subst h
            exact le_refl _
          · exact le_trans (Nat.not_lt.mp hlt) (hq3 r h)
        · rw [List.find?_cons_of_pos]
          simp

/-- C6: whenever more than one playlist is active at time `t`, the scheduler's
active-playlist selection returns an active playlist of minimal priority among
all active playlists, and on ties the earliest in declaration order (it is the
first active playlist attaining the minimal priority). -/
theorem C6_lowest_priority_selected (ps : List Playlist) (t : Nat)
    (h : 1 < (ps.filter (fun p => p.is_active t)).length) :
    ∃ p, determine_active_playlist ps t = some p ∧ p.is_active t = true ∧
      (∀ q ∈ ps, q.is_active t = true → p.get_priority ≤ q.get_priority) ∧
      (ps.filter (fun q => q.is_active t)).find?
        (fun q => q.get_priority == p.get_priority) = some p := by
  have hne : ps.filter (fun p => p.is_active t) ≠ [] := by
    intro h0
    rw [h0] at h
    simp at h
  obtain ⟨p, h1, h2, h3, h4⟩ := select_lowest_spec _ hne
  have hpa : p.is_active t = true := (List.mem_filter.mp h2).2
  refine ⟨p, h1, hpa, ?_, h4⟩
  intro q hq hqa
  exact h3 q (List.mem_filter.mpr ⟨hq, hqa⟩)

/-- Witness for C6: an all-day playlist and a morning playlist (09:00–15:00)
are both active at 10:00; the shorter (lower-priority) morning one wins. -/
theorem C6_witness :
    ∃ p, determine_active_playlist
        [Playlist.mk "AllDay" 0 1440, Playlist.mk "Morning" 540 900] 600 = some p ∧
      p.is_active 600 = true ∧
      (∀ q ∈ [Playlist.mk "AllDay" 0 1440, Playlist.mk "Morning" 540 900],
        q.is_active 600 = true → p.get_priority ≤ q.get_priority) ∧
      (([Playlist.mk "AllDay" 0 1440, Playlist.mk "Morning" 540 900]).filter
        (fun q => q.is_active 600)).find?
        (fun q => q.get_priority == p.get_priority) = some p :=
  C6_lowest_priority_selected
    [Playlist.mk "AllDay" 0 1440, Playlist.mk "Morning" 540 900] 600 (by decide)

/-- C7: an interval instance is due iff `last_refreshed` is absent or
`now - last_refreshed ≥ s`; in particular with `interval = 3600`, an instance
last refreshed 3601 seconds ago is due and one last refreshed 3599 seconds ago
is not. -/
theorem C7_interval_due (s now lr : Nat) (hlr : lr ≤ now) :
    is_due (Refresh.interval s) none now = true ∧
    (is_due (Refresh.interval s) (some lr) now = true ↔ now - lr ≥ s) ∧
    (3601 ≤ now → is_due (Refresh.interval 3600) (some (now - 3601)) now = true) ∧
    (3601 ≤ now → is_due (Refresh.interval 3600) (some (now - 3599)) now = false) := by
  refine ⟨rfl, ?_, ?_, ?_⟩
  · simp [is_due]
  · intro h
    simp [is_due]
    omega
  · intro h
    simp [is_due]
    omega

/-- Witness for C7 at `now = 10000`. -/
theorem C7_witness :
    is_due (Refresh.interval 3600) (some (10000 - 3601)) 10000 = true ∧
    is_due (Refresh.interval 3600) (some (10000 - 3599)) 10000 = false :=
  ⟨(C7_interval_due 3600 10000 400 (by decide)).2.2.1 (by decide),
   (C7_interval_due 3600 10000 400 (by decide)).2.2.2 (by decide)⟩

/-- C8: in any cycle where the plugin's render fails, the display sink is never
invoked (no image is produced for it) and the instance — in particular its
`last_refreshed` field — is returned unchanged, so it stays eligible for a
later cycle. -/
theorem C8_failed_render_no_display (render : PluginInstance → Except String Nat)
    (inst : PluginInstance) (now : Nat) (e : String)
    (h : render inst = Except.error e) :
    process_instance render inst now = (none, inst) := by
  unfold process_instance
  split_ifs with hdue
  · rw [h]
  · rfl

/-- Witness for C8: a render that fails with an upstream error leaves the
instance untouched and sends nothing to the display sink. -/
theorem C8_witness :
    process_instance (fun _ => Except.error "upstream API failure")
      (PluginInstance.mk "weather" "home" [] (Refresh.interval 3600) none) 1000 =
      (none, PluginInstance.mk "weather" "home" [] (Refresh.interval 3600) none) :=
  C8_failed_render_no_display (fun _ => Except.error "upstream API failure")
    (PluginInstance.mk "weather" "home" [] (Refresh.interval 3600) none) 1000
    "upstream API failure" rfl

/-- Counterexample to C9 as stated: with the background loop not running, a
manual update for a plugin that exists (and whose display sink would accept
any image) but whose `generate_image` call raises is answered with a 500
error, not success. -/
theorem C9_counterexample :
    "weather" ∈ ["weather"] ∧
    update_now false ["weather"] (fun _ _ => Except.error "api down")
      (fun _ => Except.ok ()) "weather" [] =
      UpdateNowOutcome.serverError "api down" ∧
    update_now_status (update_now false ["weather"]
      (fun _ _ => Except.error "api down") (fun _ => Except.ok ())
      "weather" []) = 500 := by
  refine ⟨List.mem_singleton_self _, ?_, ?_⟩ <;> rfl

/-- C9 amended: when the scheduler's `running` flag is true, the request is
submitted to the background loop as a `ManualRefresh`; when `running` is
false, the request is serviced by a direct synchronous `generate_image`
followed by `display_image`, succeeding (HTTP 200) whenever the named plugin
exists AND its `generate_image` call succeeds AND the `display_image` call
succeeds (both run inside the route's `try/except`, so either one raising
yields a 500 error even for an existing plugin). -/
theorem C9_update_now_paths (running : Bool) (plugins : List String)
    (gen : String → List (String × String) → Except String Nat)
    (disp : Nat → Except String Unit)
    (pid : String) (settings : List (String × String)) :
    (running = true → update_now running plugins gen disp pid settings =
      UpdateNowOutcome.queued ⟨pid, settings⟩) ∧
    (running = false → pid ∈ plugins →
      ∀ img, gen pid settings = Except.ok img → disp img = Except.ok () →
        update_now running plugins gen disp pid settings =
          UpdateNowOutcome.displayed img ∧
        update_now_status (update_now running plugins gen disp pid settings) =
          200) := by
  constructor
  · intro hr
    subst hr
    rfl
  · intro hr hmem img hgen hdisp
    subst hr
    simp [update_now, hmem, hgen, hdisp, update_now_status]

/-- Witness for C9 at both values of the `running` flag. -/
theorem C9_witness :
    update_now true ["weather"] (fun _ _ => Except.ok 7)
      (fun _ => Except.ok ()) "weather" [] =
      UpdateNowOutcome.queued ⟨"weather", []⟩ ∧
    update_now false ["weather"] (fun _ _ => Except.ok 7)
      (fun _ => Except.ok ()) "weather" [] =
      UpdateNowOutcome.displayed 7 :=
  ⟨(C9_update_now_paths true ["weather"] (fun _ _ => Except.ok 7)
      (fun _ => Except.ok ()) "weather" []).1 rfl,
   ((C9_update_now_paths false ["weather"] (fun _ _ => Except.ok 7)
      (fun _ => Except.ok ()) "weather" []).2 rfl
      (List.mem_singleton_self _) 7 rfl rfl).1⟩

/-- C10: the `image` route's security check is a *string*-prefix test
(`str.startswith`), so a resolved path escaping into a sibling directory whose
name extends the plugins directory's name is not rejected.  With plugins
directory `/app/plugins`, `plugin_id = ".."` and
`filename = plugins_evil/secret.png`, the resolved path
`/app/plugins_evil/secret.png` does not lie under `/app/plugins`, yet the
route serves the file instead of returning 403 "Invalid path". -/
theorem C10_traversal_check_bypassed :
    within_dir (normalize_path ["app", "plugins"])
      (normalize_path (["app", "plugins", ".."] ++
        ["plugins_evil", "secret.png"])) = false ∧
    image_route [["app"]] [["app", "plugins_evil", "secret.png"]]
      ["app", "plugins"] ".." ["plugins_evil", "secret.png"] =
      ImageRouteResult.serve ["app"] ["plugins_evil", "secret.png"] := by
  refine ⟨?_, ?_⟩ <;> rfl

end InkyPi
